import Mathlib

/-!
# VideoSearch-AI backend: shallow embedding and verification

This file embeds the core of the VideoSearch-AI backend in Lean 4 and proves
properties of it:

* `src/backend/src/job_queue.py` — the job orchestrator: the job metadata
  record stored in Redis, `update_job_progress`, `mark_job_complete`,
  `mark_job_failed`, and the RQ-handle reconciliation in `get_job_status`;
* `src/backend/src/vector_db.py` — the search aggregator: `VectorDB.search`
  (Qdrant `query_points` with filters, score floor and `top_k * 2` limit,
  followed by 2-second-window temporal deduplication) and
  `VectorDB.delete_video`;
* `src/backend/src/worker.py` — the pipeline runner `process_video`;
* `src/backend/src/models.py` / `src/backend/src/main.py` /
  `src/backend/src/ai_service.py` — the `/search` endpoint validation path.

Python floats are modelled as `ℚ`, Python ints as `ℕ`/`ℤ`, fallible calls as
`Option`/`Except` or explicit error oracles.  Timestamps from `datetime` are
irrelevant to every property proved here and are omitted from the record.
-/

namespace VideoSearch

/-- The job metadata dictionary stored in Redis by `JobQueue._set_job_metadata`
(`job_queue.py`).  The `job_id`, `video_id`, `video_path`, `created_at` and
`updated_at` entries never influence the properties below and are omitted;
the remaining fields are exactly the dictionary keys the orchestrator
operations read and write.  `status` is the raw string the code stores
(`"pending"`, `"processing"`, `"completed"`, `"failed"`). -/
structure JobMetadata where
  status : String
  progress : ℚ
  frames_processed : ℕ
  total_frames : ℕ
  error : Option String
  deriving DecidableEq, Repr

/-- The initial metadata record written by `JobQueue.enqueue_video_processing`
(`job_queue.py` lines 79–90): status `"pending"`, progress `0.0`, both frame
counters `0`, error `null`. -/
def initialMetadata : JobMetadata :=
  { status := "pending", progress := 0, frames_processed := 0,
    total_frames := 0, error := none }

/-- `JobQueue.update_job_progress` (`job_queue.py` lines 127–153): overwrites
the `progress`, `frames_processed`, `total_frames` and `status` keys of the
stored dictionary with the supplied arguments (last write wins) and leaves
every other key — in particular `error` — untouched.  The Python defaults are
`frames_processed=0`, `total_frames=0`, `status="processing"`; callers that
rely on them pass those values here explicitly. -/
def update_job_progress (m : JobMetadata) (progress : ℚ)
    (frames_processed : ℕ) (total_frames : ℕ) (status : String) :
    JobMetadata :=
  { m with
    progress := progress
    frames_processed := frames_processed
    total_frames := total_frames
    status := status }

/-- `JobQueue.mark_job_complete` (`job_queue.py` lines 155–158): delegates to
`update_job_progress(video_id, 1.0, status="completed")`, so the Python
defaults `frames_processed=0` and `total_frames=0` are written along with
progress `1.0` and status `"completed"`. -/
def mark_job_complete (m : JobMetadata) : JobMetadata :=
  update_job_progress m 1 0 0 "completed"

/-- `JobQueue.mark_job_failed` (`job_queue.py` lines 160–169): overwrites only
the `status` and `error` keys (and `updated_at`, omitted here); `progress`,
`frames_processed` and `total_frames` keep their stored values. -/
def mark_job_failed (m : JobMetadata) (error : String) : JobMetadata :=
  { m with status := "failed", error := some error }

/-- One orchestrator write against a job's metadata record, as performed by
`update_job_progress`, `mark_job_complete` or `mark_job_failed`. -/
inductive JobOp where
  | updateProgress (progress : ℚ) (frames_processed : ℕ)
      (total_frames : ℕ) (status : String)
  | markComplete
  | markFailed (error : String)
  deriving DecidableEq, Repr

/-- Apply one orchestrator operation to the stored record. -/
def applyOp (m : JobMetadata) : JobOp → JobMetadata
  | .updateProgress p fp tf s => update_job_progress m p fp tf s
  | .markComplete => mark_job_complete m
  | .markFailed e => mark_job_failed m e

/-- Apply a sequence of orchestrator operations, oldest first. -/
def applyOps (m : JobMetadata) (ops : List JobOp) : JobMetadata :=
  ops.foldl applyOp m

/-- The state of the underlying RQ execution handle consulted by
`JobQueue.get_job_status` (`job_queue.py` lines 109–123): `Job.fetch` may find
a failed job (with its optional `exc_info`), a finished one, a started one, a
job in none of those states (queued/deferred), or raise because the job is no
longer known to RQ. -/
inductive RQHandle where
  | failed (excInfo : Option String)
  | finished
  | started
  | queued
  | unavailable
  deriving DecidableEq, Repr

/-- The reconciliation `get_job_status` applies to a found metadata record
(`job_queue.py` lines 110–123): a failed handle forces status `"failed"` and
an error message (`str(job.exc_info)` when present, else `"Unknown error"`);
a finished handle forces status `"completed"` and progress `1.0`; a started
handle forces status `"processing"`; otherwise the record is returned as
stored (including when `Job.fetch` raises). -/
def reconcile (m : JobMetadata) : RQHandle → JobMetadata
  | .failed excInfo =>
      { m with status := "failed", error := some (excInfo.getD "Unknown error") }
  | .finished => { m with status := "completed", progress := 1 }
  | .started => { m with status := "processing" }
  | .queued => m
  | .unavailable => m

/-- `JobQueue.get_job_status` (`job_queue.py` lines 95–125): `none` when the
metadata key is absent from Redis, otherwise the stored record reconciled
against the RQ handle. -/
def get_job_status (stored : Option JobMetadata) (h : RQHandle) :
    Option JobMetadata :=
  stored.map (fun m => reconcile m h)

/-- Python's built-in `round` on a rational: round half to even (banker's
rounding), as used by `round(timestamp / 2)` in `VectorDB.search`
(`vector_db.py` line 243). -/
def pyRound (x : ℚ) : ℤ :=
  if x - ⌊x⌋ < 1/2 then ⌊x⌋
  else if 1/2 < x - ⌊x⌋ then ⌊x⌋ + 1
  else if 2 ∣ ⌊x⌋ then ⌊x⌋ else ⌊x⌋ + 1

/-- The 2-second deduplication bucket of a timestamp:
`window_key = round(timestamp / 2) * 2` (`vector_db.py` line 243). -/
def windowKey (t : ℚ) : ℤ :=
  pyRound (t / 2) * 2

/-- A Qdrant point in the `video_frames` collection together with the
similarity score the store computes for it against the current query
embedding: the payload fields written by `VectorDB.index_frame` /
`index_transcript` (`vector_db.py`) that `search` reads back, plus `score`.
For `delete_video` and the count filters only `videoId` and `ptype` matter
and `score` is ignored. -/
structure QPoint where
  videoId : String
  ptype : String
  timestamp : ℚ
  thumbnailPath : Option String
  text : Option String
  score : ℚ
  deriving DecidableEq, Repr

/-- Whether a point passes the Qdrant `must` filter built in
`VectorDB.search` (`vector_db.py` lines 206–224): the `video_id` condition
is added under `if video_id:` and the `type` condition under
`if result_type:`, so a `None` — or, Python truthiness being what it is, an
empty-string — argument adds no condition. -/
def matchesFilter (videoId? resultType? : Option String) (p : QPoint) : Bool :=
  (match videoId? with
   | some v => if v = "" then true else p.videoId = v
   | none => true) &&
  (match resultType? with
   | some t => if t = "" then true else p.ptype = t
   | none => true)

/-- The Qdrant `query_points` call made by `VectorDB.search` (`vector_db.py`
lines 227–233).  The external store returns, in its native score-descending
order, the points matching the filter whose score is at least
`score_threshold`, at most `limit` of them.  `store` is the collection's
contents paired with this query's scores, in the order the store would
return them (score-descending: hypotheses of the theorems below make this
explicit where it matters). -/
def queryPoints (store : List QPoint) (videoId? resultType? : Option String)
    (limit : ℕ) (scoreThreshold : ℚ) : List QPoint :=
  (store.filter
    (fun p => matchesFilter videoId? resultType? p && scoreThreshold ≤ p.score)).take limit

/-- The deduplication loop of `VectorDB.search` (`vector_db.py` lines
236–258), with the `len(processed) >= top_k` break mirrored by the fuel
`k` = number of slots still free in `processed`: a hit whose `window_key`
was already seen is skipped; otherwise it is appended and, when `processed`
has reached `top_k` entries (`k ≤ 1` on entry), the loop breaks. -/
def dedupTake (seen : List ℤ) (k : ℕ) : List QPoint → List QPoint
  | [] => []
  | p :: rest =>
    if windowKey p.timestamp ∈ seen then dedupTake seen k rest
    else if k ≤ 1 then [p]
    else p :: dedupTake (windowKey p.timestamp :: seen) (k - 1) rest

/-- The same deduplication with no truncation: keeps the first hit
encountered for each 2-second window key. -/
def dedupAll (seen : List ℤ) : List QPoint → List QPoint
  | [] => []
  | p :: rest =>
    if windowKey p.timestamp ∈ seen then dedupAll seen rest
    else p :: dedupAll (windowKey p.timestamp :: seen) rest

/-- The default score floor `min_search_score` from `config.py` line 38. -/
def minSearchScore : ℚ := 15/100

/-- `VectorDB.search` (`vector_db.py` lines 182–263): resolve the score
floor via Python's `min_score or self.settings.min_search_score` (so both
`None` and `0.0` fall back to the configured default), ask the store for
`top_k * 2` candidates under the filter and floor, then deduplicate by
2-second window keeping the first hit per bucket, stopping once `top_k`
results are collected.  The processed dictionaries carry exactly the fields
of the hit, so the result is returned as the kept points themselves. -/
def search (store : List QPoint) (videoId? resultType? : Option String)
    (top_k : ℕ) (min_score : Option ℚ) : List QPoint :=
  let minScore : ℚ :=
    match min_score with
    | some s => if s = 0 then minSearchScore else s
    | none => minSearchScore
  dedupTake [] top_k (queryPoints store videoId? resultType? (top_k * 2) minScore)

/-- `VectorDB.delete_video` (`vector_db.py` lines 265–308): count the points
whose payload `video_id` matches, delete them all by filter, and return the
pre-deletion count.  The result is the returned count and the store after
deletion. -/
def delete_video (store : List QPoint) (videoId : String) : ℕ × List QPoint :=
  let countBefore := (store.filter (fun p => p.videoId = videoId)).length
  (countBefore, store.filter (fun p => ¬ (p.videoId = videoId)))

/-- Outcome of the audio stage of `process_video` (`worker.py` lines
108–142), entered only when the validated metadata reports an audio track:
`extract_audio` or `transcribe_audio` may raise a `VideoProcessingError` /
`AIServiceError` (caught and logged, stage skipped); `extract_audio` may
return a falsy path (segments never produced); or transcription yields a
list of `(start, end, text)` segments. -/
inductive AudioOutcome where
  | stageError (msg : String)
  | noAudioPath
  | segments (segs : List (ℚ × ℚ × String))
  deriving Repr

/-- The behaviour of every external collaborator during one `process_video`
run (`worker.py`): which calls raise, which succeed, and with what data.
`some msg` in an error slot means the corresponding call raises an exception
carrying `msg`.  The per-frame oracles describe `get_image_embedding`
(raises `AIServiceError`: its body wraps every failure in one),
`generate_thumbnail` (raises `VideoProcessingError` with the given message)
and `index_frame` (raises `VectorDBError`) for the frame at a given
timestamp; the per-segment oracles describe `get_text_embedding` and
`index_transcript`. -/
structure WorkerEnv where
  validateError : Option String
  hasAudio : Bool
  extractFramesError : Option String
  frames : List ℚ
  embedFails : ℚ → Bool
  thumbError : ℚ → Option String
  indexFails : ℚ → Bool
  audioOutcome : AudioOutcome
  segEmbedFails : ℚ × ℚ × String → Bool
  segIndexFails : ℚ × ℚ × String → Bool
  cleanupError : Option String
  statsError : Option String

/-- Result of one `process_video` run: the job metadata record after the
run's final orchestrator write, the number of visual and audio points
persisted in the vector store, and whether the per-job temp directory was
removed (`shutil.rmtree(temp_dir, ignore_errors=True)` runs on the success
path at line 147 and on the exception path at line 160, so it is `true` on
every path). -/
structure WorkerResult where
  record : JobMetadata
  visualPoints : ℕ
  audioPoints : ℕ
  tempDirRemoved : Bool
  deriving Repr

/-- Whether processing of the frame at timestamp `t` raises an exception
the per-item `except (AIServiceError, VectorDBError)` at `worker.py` line
102 catches, making the loop log and skip the frame: `get_image_embedding`
raising `AIServiceError`, or `index_frame` raising `VectorDBError`.  A
`generate_thumbnail` failure is *not* of this kind: it raises
`VideoProcessingError`, which escapes the per-item handler and aborts the
whole run (see `frameLoop`). -/
def frameSkips (env : WorkerEnv) (t : ℚ) : Bool :=
  env.embedFails t || env.indexFails t

/-- The frame-embedding loop (`worker.py` lines 72–104) acting on
(current record, frames indexed so far).  Per frame, in program order:
`get_image_embedding` — an `AIServiceError` is caught by the per-item
handler, the frame is skipped; `generate_thumbnail` — a
`VideoProcessingError` escapes the per-item handler and aborts the loop,
carrying the error message and the state reached so far (`.error`);
`index_frame` — a `VectorDBError` is caught, the frame is skipped.  On
full success the vector store gains a point, `frames_indexed` is
incremented and progress `0.2 + 0.5 * frames_indexed / total_frames` is
written with `frames_processed = frames_indexed`. -/
def frameLoop (env : WorkerEnv) (total : ℕ) :
    List ℚ → JobMetadata × ℕ →
      Except (String × JobMetadata × ℕ) (JobMetadata × ℕ)
  | [], st => .ok st
  | t :: rest, st =>
    if env.embedFails t then frameLoop env total rest st
    else
      match env.thumbError t with
      | some e => .error (e, st.1, st.2)
      | none =>
        if env.indexFails t then frameLoop env total rest st
        else
          let indexed := st.2 + 1
          let progress : ℚ := 2/10 + (5/10) * indexed / total
          frameLoop env total rest
            (update_job_progress st.1 progress indexed total "processing",
              indexed)

/-- The transcript segments actually indexed by the loop at `worker.py`
lines 125–137: those whose text embedding and upsert both succeed (failures
are caught per segment and skipped). -/
def indexedSegments (env : WorkerEnv) (segs : List (ℚ × ℚ × String)) :
    List (ℚ × ℚ × String) :=
  segs.filter (fun s => ¬ (env.segEmbedFails s || env.segIndexFails s))

/-- `process_video` (`worker.py` lines 20–161) as a function of the
collaborator behaviour and the job's stored metadata record at entry.
Every orchestrator write is exactly the call the code makes (note the
Python defaults: the writes at lines 48, 53 and 111 reset
`frames_processed` and `total_frames` to `0`, and `mark_job_complete`
does so too).  Any exception escaping the `try` is caught at line 155,
the job is marked failed with the exception's message, the temp dir is
removed and the exception re-raised; partial vector-store writes are kept.
In particular a `generate_thumbnail` failure aborts the frame loop and is
job-fatal, the record at abort time being the one last written by the
loop. -/
def process_video (env : WorkerEnv) (m0 : JobMetadata) : WorkerResult :=
  let m1 := update_job_progress m0 (5/100) 0 0 "processing"
  match env.validateError with
  | some e =>
      { record := mark_job_failed m1 e, visualPoints := 0, audioPoints := 0,
        tempDirRemoved := true }
  | none =>
  let m2 := update_job_progress m1 (1/10) 0 0 "processing"
  match env.extractFramesError with
  | some e =>
      { record := mark_job_failed m2 e, visualPoints := 0, audioPoints := 0,
        tempDirRemoved := true }
  | none =>
  let total := env.frames.length
  let m3 := update_job_progress m2 (2/10) 0 total "processing"
  match frameLoop env total env.frames (m3, 0) with
  | .error (e, m4, framesIndexed) =>
      { record := mark_job_failed m4 e, visualPoints := framesIndexed,
        audioPoints := 0, tempDirRemoved := true }
  | .ok (m4, framesIndexed) =>
  let audioResult : JobMetadata × ℕ :=
    if env.hasAudio then
      let m5 := update_job_progress m4 (75/100) 0 0 "processing"
      match env.audioOutcome with
      | .stageError _ => (m5, 0)
      | .noAudioPath => (m5, 0)
      | .segments segs => (m5, (indexedSegments env segs).length)
    else (m4, 0)
  let m6 := audioResult.1
  let audioPts := audioResult.2
  match env.cleanupError with
  | some e =>
      { record := mark_job_failed m6 e, visualPoints := framesIndexed,
        audioPoints := audioPts, tempDirRemoved := true }
  | none =>
  match env.statsError with
  | some e =>
      { record := mark_job_failed m6 e, visualPoints := framesIndexed,
        audioPoints := audioPts, tempDirRemoved := true }
  | none =>
      { record := mark_job_complete m6, visualPoints := framesIndexed,
        audioPoints := audioPts, tempDirRemoved := true }

/-- Whether a request body passes the Pydantic validation of
`SearchRequest` (`models.py` lines 36–40): `query` must have length between
1 and 500 and `top_k` between 1 and 20.  FastAPI runs this before the
handler body, so a failing body is rejected with a validation error before
any code in `search_video` executes. -/
def validSearchRequest (query : String) (top_k : ℕ) : Bool :=
  1 ≤ query.length && query.length ≤ 500 && 1 ≤ top_k && top_k ≤ 20

/-- How the `/search` flow can fail (`main.py` / `ai_service.py`): the
Pydantic validation error returned before the handler runs, or an
`AIServiceError` raised by `get_query_embedding`. -/
inductive SearchError where
  | validation
  | aiService (msg : String)
  deriving DecidableEq, Repr

/-- The guard of `AIService.get_query_embedding` (`ai_service.py` lines
136–139): `not query or not query.strip()` — an empty or whitespace-only
query raises `AIServiceError` before the HTTP request to the embedding
provider is issued (`query.strip()` is falsy exactly when every character
is whitespace).  The result's second component counts external collaborator
calls made (the Jina HTTP POST); the embedding itself is abstract, so
success carries no data. -/
def get_query_embedding (query : String) : Except SearchError Unit × ℕ :=
  if query.isEmpty || query.toList.all Char.isWhitespace then
    (.error (.aiService "Cannot embed empty query"), 0)
  else
    (.ok (), 1)

/-- The `/search` endpoint (`main.py` lines 210–241) over a vector store
whose contents-with-scores for this query are `store`: Pydantic validation
first (rejecting before the handler body, hence before any collaborator
call), then `get_query_embedding`, then `VectorDB.search` with the request's
`video_id` and `top_k` and no explicit `result_type`/`min_score`.  Returns
the outcome together with the total number of external collaborator calls
made (embedding calls plus one Qdrant query when it is reached). -/
def searchEndpoint (store : List QPoint) (videoId query : String)
    (top_k : ℕ) : Except SearchError (List QPoint) × ℕ :=
  if ¬ validSearchRequest query top_k then (.error .validation, 0)
  else
    match get_query_embedding query with
    | (.error e, calls) => (.error e, calls)
    | (.ok _, calls) =>
        (.ok (search store (some videoId) none top_k none), calls + 1)

/-- Score-descending order: the Vector Store's native result order, which
`VectorDB.search` relies on and never re-sorts. -/
def SortedDesc (l : List QPoint) : Prop :=
  l.Pairwise (fun a b => b.score ≤ a.score)

/-- An orchestrator write the Runner performs while a job is in flight:
an `update_job_progress` call with status `"processing"` and a progress
value below `1.0`.  Every call `worker.py` makes before its terminal
`mark_job_complete` / `mark_job_failed` is of this shape. -/
def benignOp : JobOp → Prop
  | .updateProgress p _ _ s => s = "processing" ∧ p < 1
  | _ => False

/-- An operation admissible as the last write of a run: an in-flight
progress update, or one of the two terminal writes. -/
def finalOp : JobOp → Prop
  | .updateProgress p _ _ s => s = "processing" ∧ p < 1
  | .markComplete => True
  | .markFailed _ => True

/-- A single-owner Runner's write sequence: every write but the last is an
in-flight progress update, and at most one terminal write occurs, last. -/
def runnerSeq (ops : List JobOp) : Prop :=
  (∀ op ∈ ops.dropLast, benignOp op) ∧ (∀ op ∈ ops.getLast?, finalOp op)

/-- The spec's §8 record invariant: not Completed with a non-null error,
and not Failed with progress `1.0`. -/
def consistentRecord (m : JobMetadata) : Prop :=
  (m.status = "completed" → m.error = none) ∧
  (m.status = "failed" → m.progress ≠ 1)

/-- A visual hit at 10.4 s with score 0.9. -/
def hitVis104 : QPoint :=
  { videoId := "v", ptype := "visual", timestamp := 52/5,
    thumbnailPath := some "a.jpg", text := none, score := 9/10 }

/-- A visual hit at 11.2 s with score 0.8. -/
def hitVis112 : QPoint :=
  { videoId := "v", ptype := "visual", timestamp := 56/5,
    thumbnailPath := some "b.jpg", text := none, score := 8/10 }

/-- A visual hit at 10.9 s with score 0.8. -/
def hitVis109 : QPoint :=
  { videoId := "v", ptype := "visual", timestamp := 109/10,
    thumbnailPath := some "c.jpg", text := none, score := 8/10 }

/-- A collaborator behaviour for `process_video` with two extracted frames
(timestamps 0 s and 1 s), where the embedding call for the frame at 0 s
fails (an item-skippable `AIServiceError`) and everything else succeeds;
the video is silent. -/
def envOneBadFrame : WorkerEnv :=
  { validateError := none, hasAudio := false, extractFramesError := none,
    frames := [0, 1],
    embedFails := fun t => decide (t = 0),
    thumbError := fun _ => none, indexFails := fun _ => false,
    audioOutcome := .noAudioPath,
    segEmbedFails := fun _ => false, segIndexFails := fun _ => false,
    cleanupError := none, statsError := none }

/-- A fully succeeding collaborator behaviour for `process_video` with one
extracted frame and no audio. -/
def envAllGood : WorkerEnv :=
  { validateError := none, hasAudio := false, extractFramesError := none,
    frames := [0],
    embedFails := fun _ => false, thumbError := fun _ => none,
    indexFails := fun _ => false, audioOutcome := .noAudioPath,
    segEmbedFails := fun _ => false, segIndexFails := fun _ => false,
    cleanupError := none, statsError := none }

/-- A collaborator behaviour with two extracted frames where
`generate_thumbnail` raises a `VideoProcessingError` for the frame at 0 s
and everything else succeeds. -/
def envThumbFatal : WorkerEnv :=
  { validateError := none, hasAudio := false, extractFramesError := none,
    frames := [0, 1],
    embedFails := fun _ => false,
    thumbError := fun t =>
      if t = 0 then some "Thumbnail generation failed: boom" else none,
    indexFails := fun _ => false,
    audioOutcome := .noAudioPath,
    segEmbedFails := fun _ => false, segIndexFails := fun _ => false,
    cleanupError := none, statsError := none }

/-- `envAllGood`, except that `cleanup_temp_files` raises an `OSError`
carrying "disk error" (e.g. a file it cannot unlink). -/
def envCleanupFails : WorkerEnv :=
  { envAllGood with cleanupError := some "disk error" }

/-- A record mid-processing, as stored by the Runner during the frame
loop. -/
def processingRecord : JobMetadata :=
  { status := "processing", progress := 1/2, frames_processed := 3,
    total_frames := 10, error := none }

/-! ## Helper lemmas -/

/-- The truncated deduplication loop computes a prefix of the untruncated
deduplication: with at least one free slot it returns the first `k` kept
hits. -/
theorem dedupTake_eq_take_dedupAll (xs : List QPoint) :
    ∀ (seen : List ℤ) (k : ℕ), 1 ≤ k →
      dedupTake seen k xs = (dedupAll seen xs).take k := by
  induction xs with
  | nil => intro seen k _; simp [dedupTake, dedupAll]
  | cons p rest ih =>
    intro seen k hk
    match k, hk with
    | k + 1, _ =>
      by_cases hmem : windowKey p.timestamp ∈ seen
      · simp only [dedupTake, dedupAll, if_pos hmem]
        exact ih seen (k + 1) (by omega)
      · by_cases hk1 : k + 1 ≤ 1
        · have hk0 : k = 0 := by omega
          subst hk0
          simp [dedupTake, dedupAll, if_neg hmem]
        · simp only [dedupTake, dedupAll, if_neg hmem, if_neg hk1,
            List.take_succ_cons]
          have : k + 1 - 1 = k := by omega
          rw [this, ih _ k (by omega)]

/-- The untruncated deduplication keeps a sublist of its input. -/
theorem dedupAll_sublist (xs : List QPoint) :
    ∀ seen, List.Sublist (dedupAll seen xs) xs := by
  induction xs with
  | nil => intro _; simp [dedupAll]
  | cons p rest ih =>
    intro seen
    by_cases hmem : windowKey p.timestamp ∈ seen
    · simp only [dedupAll, if_pos hmem]
      exact (ih seen).cons p
    · simp only [dedupAll, if_neg hmem]
      exact (ih _).cons₂ p

/-- No hit kept by the deduplication has a window key that was already
seen at entry. -/
theorem dedupAll_key_not_seen (xs : List QPoint) :
    ∀ seen p, p ∈ dedupAll seen xs → windowKey p.timestamp ∉ seen := by
  induction xs with
  | nil => intro seen p hp; simp [dedupAll] at hp
  | cons q rest ih =>
    intro seen p hp
    by_cases hmem : windowKey q.timestamp ∈ seen
    · rw [dedupAll, if_pos hmem] at hp
      exact ih seen p hp
    · rw [dedupAll, if_neg hmem] at hp
      rcases List.mem_cons.mp hp with rfl | hp'
      · exact hmem
      · have := ih _ p hp'
        intro hin
        exact this (List.mem_cons_of_mem _ hin)

/-- The hits surviving deduplication have pairwise distinct 2-second
window keys: at most one hit per bucket is kept. -/
theorem dedupAll_pairwise_keys (xs : List QPoint) :
    ∀ seen, (dedupAll seen xs).Pairwise
      (fun a b => windowKey a.timestamp ≠ windowKey b.timestamp) := by
  induction xs with
  | nil => intro _; simp [dedupAll]
  | cons q rest ih =>
    intro seen
    by_cases hmem : windowKey q.timestamp ∈ seen
    · rw [dedupAll, if_pos hmem]; exact ih seen
    · rw [dedupAll, if_neg hmem]
      refine List.Pairwise.cons ?_ (ih _)
      intro b hb
      have := dedupAll_key_not_seen rest _ b hb
      intro hEq
      exact this (by rw [← hEq]; exact List.mem_cons_self _ _)

/-- When no thumbnail call fails, the frame-embedding loop never aborts
and increments its counter exactly once per frame whose embedding and
indexing both succeed. -/
theorem frameLoop_count (env : WorkerEnv) (total : ℕ) (ts : List ℚ)
    (hnt : ∀ t ∈ ts, env.thumbError t = none) :
    ∀ (m : JobMetadata) (i : ℕ), ∃ m',
      frameLoop env total ts (m, i)
        = .ok (m', i + (ts.filter (fun t => !(frameSkips env t))).length) := by
  induction ts with
  | nil => intro m i; exact ⟨m, by simp [frameLoop]⟩
  | cons t rest ih =>
    intro m i
    have hthumb : env.thumbError t = none := hnt t (List.mem_cons_self _ _)
    have hnt' : ∀ u ∈ rest, env.thumbError u = none :=
      fun u hu => hnt u (List.mem_cons_of_mem _ hu)
    by_cases hemb : env.embedFails t = true
    · have hskip : frameSkips env t = true := by simp [frameSkips, hemb]
      have hstep : frameLoop env total (t :: rest) (m, i)
          = frameLoop env total rest (m, i) := by
        simp [frameLoop, hemb]
      obtain ⟨m', hm'⟩ := ih hnt' m i
      refine ⟨m', ?_⟩
      rw [hstep, hm']
      simp [List.filter_cons, hskip]
    · have hembF : env.embedFails t = false := by
        simpa using hemb
      by_cases hidx : env.indexFails t = true
      · have hskip : frameSkips env t = true := by simp [frameSkips, hidx]
        have hstep : frameLoop env total (t :: rest) (m, i)
            = frameLoop env total rest (m, i) := by
          simp [frameLoop, hembF, hthumb, hidx]
        obtain ⟨m', hm'⟩ := ih hnt' m i
        refine ⟨m', ?_⟩
        rw [hstep, hm']
        simp [List.filter_cons, hskip]
      · have hidxF : env.indexFails t = false := by
          simpa using hidx
        have hskip : frameSkips env t = false := by
          simp [frameSkips, hembF, hidxF]
        have hstep : frameLoop env total (t :: rest) (m, i)
            = frameLoop env total rest
                (update_job_progress m
                  (2/10 + (5/10) * (↑(i + 1) : ℚ) / ↑total)
                  (i + 1) total "processing", i + 1) := by
          simp [frameLoop, hembF, hthumb, hidxF]
        obtain ⟨m', hm'⟩ := ih hnt' _ (i + 1)
        refine ⟨m', ?_⟩
        rw [hstep, hm']
        have hx : (i + 1)
              + (rest.filter (fun u => !(frameSkips env u))).length
            = i + ((t :: rest).filter
                (fun u => !(frameSkips env u))).length := by
          simp [List.filter_cons, hskip]
          omega
        exact congrArg Except.ok (congrArg (Prod.mk m') hx)

/-- In-flight progress updates preserve a null error and sub-1 progress. -/
theorem benign_preserves (ops : List JobOp) :
    ∀ m : JobMetadata, (∀ op ∈ ops, benignOp op) →
      m.error = none → m.progress < 1 →
      (applyOps m ops).error = none ∧ (applyOps m ops).progress < 1 := by
  induction ops with
  | nil => intro m _ he hp; exact ⟨he, hp⟩
  | cons op rest ih =>
    intro m hall he hp
    have hop : benignOp op := hall op (List.mem_cons_self _ _)
    have hrest : ∀ o ∈ rest, benignOp o :=
      fun o ho => hall o (List.mem_cons_of_mem _ ho)
    match op, hop with
    | .updateProgress p fp tf s, ⟨_, hplt⟩ =>
      exact ih _ hrest he hplt

/-! ## Claim theorems -/

/-- C10: `mark_job_failed` modifies only the status and error fields of the
job record: after `mark_job_failed(videoId, error)` the `progress`,
`frames_processed` and `total_frames` fields are unchanged from their
values before the call, for every prior record state. -/
theorem C10_mark_failed_frame_effect (m : JobMetadata) (e : String) :
    (mark_job_failed m e).progress = m.progress ∧
    (mark_job_failed m e).frames_processed = m.frames_processed ∧
    (mark_job_failed m e).total_frames = m.total_frames ∧
    (mark_job_failed m e).status = "failed" ∧
    (mark_job_failed m e).error = some e :=
  ⟨rfl, rfl, rfl, rfl, rfl⟩

/-- C8: video deletion is idempotent — for every store contents and
videoId, a second `delete_video` immediately after a first returns a count
of zero points deleted (and, the operation being a total function of the
store, never errors while the store is available); the store is unchanged
by the second call. -/
theorem C8_delete_video_idempotent (store : List QPoint) (videoId : String) :
    (delete_video (delete_video store videoId).2 videoId).1 = 0 ∧
    (delete_video (delete_video store videoId).2 videoId).2
      = (delete_video store videoId).2 := by
  constructor
  · simp only [delete_video, List.length_eq_zero, List.filter_eq_nil_iff]
    intro a ha
    simp only [List.mem_filter, decide_not] at ha
    simpa using ha.2
  · simp only [delete_video, List.filter_filter]
    congr 1
    funext a
    cases h : decide (a.videoId = videoId) <;> simp [h]

/-- C4: `get_job_status` reconciles the stored record against the RQ
execution handle: if the execution failed externally while the stored
record says Processing, the returned record has status `"failed"` and a
non-null error message; if the execution finished while the stored record
says Processing, the returned record has status `"completed"` with
progress forced to `1.0`. -/
theorem C4_get_status_reconciles (m : JobMetadata) (excInfo : Option String)
    (_hm : m.status = "processing") :
    get_job_status (some m) (.failed excInfo)
      = some { m with status := "failed",
                      error := some (excInfo.getD "Unknown error") } ∧
    (∀ r, get_job_status (some m) (.failed excInfo) = some r →
      r.status = "failed" ∧ r.error ≠ none) ∧
    get_job_status (some m) .finished
      = some { m with status := "completed", progress := 1 } := by
  refine ⟨rfl, ?_, rfl⟩
  intro r hr
  have : r = { m with
                status := "failed",
                error := some (excInfo.getD "Unknown error") } := by
    simpa [get_job_status, reconcile] using hr.symm
  subst this
  exact ⟨rfl, by simp⟩

/-- Witness for C4 at a concrete mid-processing record and a failed handle
with no `exc_info`. -/
theorem C4_get_status_reconciles_witness :
    processingRecord.status = "processing" ∧
    get_job_status (some processingRecord) (.failed none)
      = some { processingRecord with
                status := "failed",
                error := some "Unknown error" } :=
  ⟨rfl, (C4_get_status_reconciles processingRecord none rfl).1⟩

/-- C2 counterexample: starting from the enqueue-time record, publish
`total_frames = 10` with an `update_job_progress` call and then call
`mark_job_complete`; `total_frames` was non-zero and nevertheless changes
to `0`, because `mark_job_complete` delegates to `update_job_progress`
with its Python default `total_frames=0`. -/
theorem C2_counterexample :
    (applyOps initialMetadata
      [.updateProgress (2/10) 0 10 "processing"]).total_frames = 10 ∧
    (applyOps initialMetadata
      [.updateProgress (2/10) 0 10 "processing",
       .markComplete]).total_frames = 0 :=
  ⟨rfl, rfl⟩

/-- C2 amended: `update_job_progress` overwrites `total_frames` with the
supplied value and `mark_job_failed` preserves it, but `mark_job_complete`
— delegating to `update_job_progress` with the Python defaults — sets
status `"completed"` and progress `1.0` while resetting `frames_processed`
and `total_frames` to `0` (only the error field survives). -/
theorem C2_total_frames_behavior (m : JobMetadata) (p : ℚ)
    (fp tf : ℕ) (s e : String) :
    mark_job_complete m
      = { status := "completed", progress := 1, frames_processed := 0,
          total_frames := 0, error := m.error } ∧
    (update_job_progress m p fp tf s).total_frames = tf ∧
    (mark_job_failed m e).total_frames = m.total_frames :=
  ⟨rfl, rfl, rfl⟩

/-- C5 counterexample: the invariant fails for mixed terminal sequences —
`mark_job_failed` then `mark_job_complete` leaves a Completed record
carrying the failure's error message (`mark_job_complete` never clears
`error`), and `mark_job_complete` then `mark_job_failed` leaves a Failed
record with progress `1.0` (`mark_job_failed` never touches `progress`). -/
theorem C5_counterexample :
    (applyOps initialMetadata
      [.markFailed "boom", .markComplete]).status = "completed" ∧
    (applyOps initialMetadata
      [.markFailed "boom", .markComplete]).error = some "boom" ∧
    (applyOps initialMetadata
      [.markComplete, .markFailed "boom"]).status = "failed" ∧
    (applyOps initialMetadata
      [.markComplete, .markFailed "boom"]).progress = 1 ∧
    get_job_status
      (some (applyOps initialMetadata [.markFailed "boom", .markComplete]))
      .unavailable
      = some (applyOps initialMetadata
          [.markFailed "boom", .markComplete]) :=
  ⟨rfl, rfl, rfl, rfl, rfl⟩

/-- C5 amended: the §8 invariant — never Completed with a non-null error,
never Failed with progress `1.0` — holds for every record reached from the
enqueue-time record by a single-owner Runner write sequence: every write
but the last an in-flight progress update (status `"processing"`,
progress < 1.0), with at most one terminal write, last.  (Mixing terminal
writes violates it, per the counterexample: `mark_job_complete` preserves
`error` and `mark_job_failed` preserves `progress`.) -/
theorem C5_invariant_for_runner_sequences (ops : List JobOp)
    (h : runnerSeq ops) :
    consistentRecord (applyOps initialMetadata ops) := by
  obtain ⟨hbenign, hlast⟩ := h
  rcases ops.eq_nil_or_concat with hnil | ⟨L, b, hconc⟩
  · subst hnil
    constructor
    · intro hc
      simp [applyOps, initialMetadata] at hc
    · intro hf
      simp [applyOps, initialMetadata] at hf
  · have hconc' : ops = L ++ [b] := by simpa using hconc
    subst hconc'
    have hbenignL : ∀ op ∈ L, benignOp op := by
      intro op hop
      exact hbenign op (by simpa using hop)
    have hfinal : finalOp b := by
      have : b ∈ (L ++ [b]).getLast? := by simp
      exact hlast b this
    have hP := benign_preserves L initialMetadata hbenignL rfl
      (by simp [initialMetadata])
    have happ : applyOps initialMetadata (L ++ [b])
        = applyOp (applyOps initialMetadata L) b := by
      simp [applyOps]
    rw [happ]
    match b, hfinal with
    | .updateProgress p fp tf s, ⟨hs, _⟩ =>
      subst hs
      constructor
      · intro hc
        simp [applyOp, update_job_progress] at hc
      · intro hf
        simp [applyOp, update_job_progress] at hf
    | .markComplete, _ =>
      constructor
      · intro _
        exact hP.1
      · intro hf
        simp [applyOp, mark_job_complete, update_job_progress] at hf
    | .markFailed e, _ =>
      constructor
      · intro hc
        simp [applyOp, mark_job_failed] at hc
      · intro _
        exact ne_of_lt hP.2

/-- Witness for C5 amended: a progress update followed by a terminal
`mark_job_complete` is a Runner sequence and yields a consistent record. -/
theorem C5_invariant_for_runner_sequences_witness :
    runnerSeq [JobOp.updateProgress (1/2) 3 10 "processing",
      JobOp.markComplete] ∧
    consistentRecord (applyOps initialMetadata
      [JobOp.updateProgress (1/2) 3 10 "processing", JobOp.markComplete]) := by
  have hw : runnerSeq [JobOp.updateProgress (1/2) 3 10 "processing",
      JobOp.markComplete] := by
    refine ⟨?_, ?_⟩
    · intro op hop
      simp only [List.dropLast, List.mem_singleton] at hop
      subst hop
      exact ⟨rfl, by norm_num⟩
    · intro op hop
      simp only [List.getLast?] at hop
      simp at hop
      subst hop
      trivial
  exact ⟨hw, C5_invariant_for_runner_sequences _ hw⟩

/-- C9: a search whose query string is empty is rejected by the request
model's validation (`min_length=1`) before any collaborator call is made —
zero external calls; and search never errors merely because nothing
matches: a well-formed, non-blank query against an empty store returns an
OK, empty result list (after the one embedder and one store call). -/
theorem C9_empty_query_rejected_before_collaborators :
    (∀ (store : List QPoint) (videoId : String) (top_k : ℕ),
      searchEndpoint store videoId "" top_k
        = (.error .validation, 0)) ∧
    (∀ (videoId query : String) (top_k : ℕ),
      validSearchRequest query top_k = true →
      query.toList.all Char.isWhitespace = false →
      searchEndpoint [] videoId query top_k = (.ok [], 2)) := by
  constructor
  · intro store videoId top_k
    simp [searchEndpoint, validSearchRequest]
  · intro videoId query top_k hvalid hblank
    have hne : query.isEmpty = false := by
      rcases hemp : query.isEmpty with _ | _
      · rfl
      · have : query = "" := (String.isEmpty_iff query).mp hemp
        subst this
        simp [validSearchRequest] at hvalid
    have hq : get_query_embedding query = (.ok (), 1) := by
      unfold get_query_embedding
      rw [hne, hblank]
      rfl
    unfold searchEndpoint
    rw [if_neg (by simp [hvalid]), hq]
    show (Except.ok (search [] (some videoId) none top_k none), 2)
      = ((Except.ok [] : Except SearchError (List QPoint)), 2)
    simp [search, queryPoints, dedupTake]

/-- Witness for C9's second part: the query "cat" with the default
`top_k = 5` against an empty store. -/
theorem C9_empty_query_rejected_before_collaborators_witness :
    validSearchRequest "cat" 5 = true ∧
    ("cat".toList.all Char.isWhitespace) = false ∧
    searchEndpoint [] "v" "cat" 5 = (.ok [], 2) :=
  ⟨by decide, by decide,
    C9_empty_query_rejected_before_collaborators.2 "v" "cat" 5
      (by decide) (by decide)⟩

/-- C3 counterexample: under the code's bucket rule
`round(t/2)*2`, the hit at 10.4 s falls in bucket 10 but the hit at
11.2 s falls in bucket 12 (`round(5.6) = 6`), not 10: the two hits of the
claim are in different 2-second buckets, and a search over exactly those
two candidates keeps both — not only the higher-scored first-seen one. -/
theorem C3_counterexample :
    windowKey (52/5) = 10 ∧ windowKey (56/5) = 12 ∧
    search [hitVis104, hitVis112] (some "v") none 5 none
      = [hitVis104, hitVis112] := by
  refine ⟨?_, ?_, ?_⟩ <;>
    norm_num [windowKey, pyRound, search, queryPoints, matchesFilter,
      dedupTake, minSearchScore, hitVis104, hitVis112]

/-- C3 amended: deduplication buckets each hit at `round(t/2)*2` (Python
banker's rounding) and keeps at most one hit per bucket — the first
encountered in the candidate order.  Timestamps 10.4 s and 11.2 s fall in
the *different* buckets 10 and 12 so both survive; a pair genuinely in the
same bucket, such as 10.4 s and 10.9 s (both bucket 10), keeps only the
first-seen, higher-scored hit. -/
theorem C3_dedup_bucket_rule :
    (∀ t : ℚ, windowKey t = pyRound (t/2) * 2) ∧
    (∀ xs : List QPoint, (dedupAll [] xs).Pairwise
      (fun a b => windowKey a.timestamp ≠ windowKey b.timestamp)) ∧
    windowKey (52/5) = 10 ∧ windowKey (56/5) = 12 ∧
    windowKey (109/10) = 10 ∧
    search [hitVis104, hitVis109] (some "v") none 5 none = [hitVis104] := by
  refine ⟨fun t => rfl, fun xs => dedupAll_pairwise_keys xs [], ?_, ?_, ?_, ?_⟩ <;>
    norm_num [windowKey, pyRound, search, queryPoints, matchesFilter,
      dedupTake, minSearchScore, hitVis104, hitVis109]

/-- C7: with candidates served score-descending, `search` asks the store
for `top_k * 2` candidates filtered by the (non-empty) videoId and
optional resultType with the default score floor 0.15 excluding
lower-scored ones, and returns exactly the first `top_k` entries of the
deduplicated candidate list — hence at most `top_k` results, still
score-descending, all matching the filter and floor; when fewer survive it
returns them all, never padding and, being a total function, never
erroring for emptiness. -/
theorem C7_search_contract (store : List QPoint) (videoId : String)
    (resultType : Option String) (top_k : ℕ)
    (hsorted : SortedDesc store) (hk : 1 ≤ top_k) :
    search store (some videoId) resultType top_k none
      = (dedupAll [] (queryPoints store (some videoId) resultType
          (top_k * 2) minSearchScore)).take top_k ∧
    (search store (some videoId) resultType top_k none).length ≤ top_k ∧
    SortedDesc (search store (some videoId) resultType top_k none) ∧
    ((dedupAll [] (queryPoints store (some videoId) resultType
        (top_k * 2) minSearchScore)).length ≤ top_k →
      search store (some videoId) resultType top_k none
        = dedupAll [] (queryPoints store (some videoId) resultType
            (top_k * 2) minSearchScore)) ∧
    (videoId ≠ "" → ∀ p ∈ search store (some videoId) resultType top_k none,
      p.videoId = videoId ∧ minSearchScore ≤ p.score ∧
      ∀ t, resultType = some t → t ≠ "" → p.ptype = t) := by
  have huf : search store (some videoId) resultType top_k none
      = dedupTake [] top_k
          (queryPoints store (some videoId) resultType (top_k * 2)
            minSearchScore) := rfl
  have h1 : search store (some videoId) resultType top_k none
      = (dedupAll [] (queryPoints store (some videoId) resultType
          (top_k * 2) minSearchScore)).take top_k := by
    rw [huf]
    exact dedupTake_eq_take_dedupAll _ [] top_k hk
  have hcands_sorted :
      SortedDesc (queryPoints store (some videoId) resultType (top_k * 2)
        minSearchScore) :=
    (hsorted.filter _).sublist (List.take_sublist _ _)
  refine ⟨h1, ?_, ?_, ?_, ?_⟩
  · rw [h1]
    exact List.length_take_le _ _
  · rw [h1]
    exact (hcands_sorted.sublist (dedupAll_sublist _ [])).sublist
      (List.take_sublist _ _)
  · intro hlen
    rw [h1]
    exact List.take_of_length_le hlen
  · intro hv p hp
    rw [h1] at hp
    have hp1 : p ∈ dedupAll [] (queryPoints store (some videoId) resultType
        (top_k * 2) minSearchScore) := List.mem_of_mem_take hp
    have hp2 : p ∈ queryPoints store (some videoId) resultType (top_k * 2)
        minSearchScore := (dedupAll_sublist _ []).subset hp1
    have hp3 : p ∈ store.filter
        (fun q => matchesFilter (some videoId) resultType q
          && decide (minSearchScore ≤ q.score)) := List.mem_of_mem_take hp2
    have hp4 := (List.mem_filter.mp hp3).2
    simp only [Bool.and_eq_true, decide_eq_true_eq] at hp4
    obtain ⟨hmatch, hscore⟩ := hp4
    simp only [matchesFilter, Bool.and_eq_true] at hmatch
    obtain ⟨hvid, htype⟩ := hmatch
    rw [if_neg hv] at hvid
    refine ⟨by simpa using hvid, hscore, ?_⟩
    intro t ht htne
    subst ht
    simp [htne] at htype
    exact htype

/-- Witness for C7 at a two-candidate store, `top_k = 5`. -/
theorem C7_search_contract_witness :
    SortedDesc [hitVis104, hitVis112] ∧ 1 ≤ 5 ∧
    (search [hitVis104, hitVis112] (some "v") none 5 none).length ≤ 5 := by
  have hs : SortedDesc [hitVis104, hitVis112] := by
    norm_num [SortedDesc, List.pairwise_cons, hitVis104, hitVis112]
  exact ⟨hs, by norm_num,
    (C7_search_contract [hitVis104, hitVis112] "v" none 5 hs
      (by norm_num)).2.1⟩

/-- C1 counterexample: two frames are extracted (n = 2) and the embedding
call fails for one of them (k = 1), every other stage succeeding.  The job
does reach Completed and exactly n − k = 1 visual point is persisted, but
the job record's `frames_processed` field reports `0`, not the attempted
count 2: the loop counts only successfully indexed frames, and
`mark_job_complete` resets the counter to its Python default `0`. -/
theorem C1_counterexample :
    (process_video envOneBadFrame initialMetadata).record.status
      = "completed" ∧
    (process_video envOneBadFrame initialMetadata).visualPoints = 1 ∧
    (process_video envOneBadFrame initialMetadata).record.frames_processed
      = 0 ∧
    ¬ (process_video envOneBadFrame initialMetadata).record.frames_processed
      = 2 := by
  refine ⟨?_, ?_, ?_, ?_⟩ <;>
    norm_num [process_video, envOneBadFrame, frameLoop, frameSkips,
      initialMetadata, update_job_progress, mark_job_complete,
      mark_job_failed]

/-- C1 amended: if the embedding or indexing call — the failures the
per-item handler catches — fails for k of n extracted frames (0 < k < n),
no thumbnail call fails, and the remaining stages succeed, the job still
reaches Completed with progress 1.0 and the number of visual points
persisted is n − k; but the per-item counter counts only successfully
indexed items, and the final record's `frames_processed` and
`total_frames` read 0 because `mark_job_complete` resets both to their
Python defaults.  A thumbnail failure, by contrast, is job-fatal: its
`VideoProcessingError` escapes the per-item handler, as in the concrete
run appended here, which ends Failed with the thumbnail error and no
points persisted. -/
theorem C1_skip_and_continue (env : WorkerEnv)
    (hv : env.validateError = none) (he : env.extractFramesError = none)
    (hc : env.cleanupError = none) (hs : env.statsError = none)
    (hnt : ∀ t ∈ env.frames, env.thumbError t = none)
    (_hk : 0 < (env.frames.filter (fun t => frameSkips env t)).length)
    (hkn : (env.frames.filter (fun t => frameSkips env t)).length
      < env.frames.length) :
    ((process_video env initialMetadata).record.status = "completed" ∧
    (process_video env initialMetadata).record.progress = 1 ∧
    (process_video env initialMetadata).visualPoints
      = env.frames.length
        - (env.frames.filter (fun t => frameSkips env t)).length ∧
    (process_video env initialMetadata).record.frames_processed = 0 ∧
    (process_video env initialMetadata).record.total_frames = 0) ∧
    ((process_video envThumbFatal initialMetadata).record.status
        = "failed" ∧
    (process_video envThumbFatal initialMetadata).record.error
      = some "Thumbnail generation failed: boom" ∧
    (process_video envThumbFatal initialMetadata).visualPoints = 0) := by
  have hsplit : (env.frames.filter (fun t => frameSkips env t)).length
      + (env.frames.filter (fun t => !(frameSkips env t))).length
      = env.frames.length :=
    (List.length_eq_length_filter_add (fun t => frameSkips env t)).symm
  constructor
  · obtain ⟨m', hm'⟩ := frameLoop_count env env.frames.length env.frames hnt
      (update_job_progress (update_job_progress (update_job_progress
        initialMetadata (5/100) 0 0 "processing") (1/10) 0 0 "processing")
        (2/10) 0 env.frames.length "processing") 0
    unfold process_video
    rw [hv, he, hc, hs]
    simp only [hm']
    cases hA : env.hasAudio
    · refine ⟨rfl, rfl, ?_, rfl, rfl⟩
      show 0 + (env.frames.filter (fun t => !(frameSkips env t))).length
        = env.frames.length
          - (env.frames.filter (fun t => frameSkips env t)).length
      omega
    · cases hAO : env.audioOutcome <;>
        · refine ⟨rfl, rfl, ?_, rfl, rfl⟩
          show 0 + (env.frames.filter (fun t => !(frameSkips env t))).length
            = env.frames.length
              - (env.frames.filter (fun t => frameSkips env t)).length
          omega
  · refine ⟨?_, ?_, ?_⟩ <;>
      norm_num [process_video, envThumbFatal, frameLoop, initialMetadata,
        update_job_progress, mark_job_failed]

/-- Witness for C1 amended at the two-frame environment with one
embedding failure. -/
theorem C1_skip_and_continue_witness :
    envOneBadFrame.validateError = none ∧
    envOneBadFrame.extractFramesError = none ∧
    envOneBadFrame.cleanupError = none ∧
    envOneBadFrame.statsError = none ∧
    (∀ t ∈ envOneBadFrame.frames, envOneBadFrame.thumbError t = none) ∧
    0 < (envOneBadFrame.frames.filter
      (fun t => frameSkips envOneBadFrame t)).length ∧
    (envOneBadFrame.frames.filter
      (fun t => frameSkips envOneBadFrame t)).length
      < envOneBadFrame.frames.length ∧
    (process_video envOneBadFrame initialMetadata).visualPoints
      = envOneBadFrame.frames.length
        - (envOneBadFrame.frames.filter
            (fun t => frameSkips envOneBadFrame t)).length := by
  have h4 : ∀ t ∈ envOneBadFrame.frames,
      envOneBadFrame.thumbError t = none := fun _ _ => rfl
  have h5 : 0 < (envOneBadFrame.frames.filter
      (fun t => frameSkips envOneBadFrame t)).length := by
    norm_num [envOneBadFrame, frameSkips]
  have h6 : (envOneBadFrame.frames.filter
      (fun t => frameSkips envOneBadFrame t)).length
      < envOneBadFrame.frames.length := by
    norm_num [envOneBadFrame, frameSkips]
  exact ⟨rfl, rfl, rfl, rfl, h4, h5, h6,
    (C1_skip_and_continue envOneBadFrame rfl rfl rfl rfl h4 h5 h6).1.2.2.1⟩

/-- C6 counterexample: with every stage succeeding the job completes; but
if `cleanup_temp_files` raises (it has no exception handling of its own
and runs inside the worker's `try` block before `mark_job_complete`), the
otherwise-identical job is marked Failed with the cleanup error — a
cleanup failure does change the job's terminal outcome. -/
theorem C6_counterexample :
    (process_video envAllGood initialMetadata).record.status
      = "completed" ∧
    (process_video envCleanupFails initialMetadata).record.status
      = "failed" ∧
    (process_video envCleanupFails initialMetadata).record.error
      = some "disk error" := by
  refine ⟨?_, ?_, ?_⟩ <;>
    norm_num [process_video, envAllGood, envCleanupFails, frameLoop,
      frameSkips, initialMetadata, update_job_progress, mark_job_complete,
      mark_job_failed]

/-- C6 amended: the per-job temp directory is removed on every path —
success and failure alike — by `shutil.rmtree(..., ignore_errors=True)`,
and a cleanup failure on the exception path never escalates; but on the
success path (validation, extraction and the frame loop all reaching
cleanup — in particular no job-fatal thumbnail failure) `cleanup_temp_files`
runs inside the `try` block before `mark_job_complete`, so an error raised
inside it marks the job Failed with that error instead of letting it
complete. -/
theorem C6_cleanup_behavior (env : WorkerEnv) (e : String)
    (hv : env.validateError = none) (he : env.extractFramesError = none)
    (hnt : ∀ t ∈ env.frames, env.thumbError t = none)
    (hcl : env.cleanupError = some e) :
    (∀ (env' : WorkerEnv) (m : JobMetadata),
      (process_video env' m).tempDirRemoved = true) ∧
    (process_video env initialMetadata).record.status = "failed" ∧
    (process_video env initialMetadata).record.error = some e := by
  refine ⟨?_, ?_⟩
  · intro env' m
    unfold process_video
    rcases env'.validateError with _ | e1
    · rcases env'.extractFramesError with _ | e2
      · rcases hloop : frameLoop env' env'.frames.length env'.frames
            (update_job_progress (update_job_progress (update_job_progress
              m (5/100) 0 0 "processing") (1/10) 0 0 "processing")
              (2/10) 0 env'.frames.length "processing", 0)
          with ⟨e3, m4, fi⟩ | ⟨m4, fi⟩
        · simp only [hloop]
        · simp only [hloop]
          rcases env'.cleanupError with _ | e3
          · rcases env'.statsError with _ | e4 <;> rfl
          · rfl
      · rfl
    · rfl
  · obtain ⟨m', hm'⟩ := frameLoop_count env env.frames.length env.frames hnt
      (update_job_progress (update_job_progress (update_job_progress
        initialMetadata (5/100) 0 0 "processing") (1/10) 0 0 "processing")
        (2/10) 0 env.frames.length "processing") 0
    unfold process_video
    rw [hv, he, hcl]
    simp only [hm']
    cases hA : env.hasAudio
    · exact ⟨rfl, rfl⟩
    · cases hAO : env.audioOutcome <;> exact ⟨rfl, rfl⟩

/-- Witness for C6 amended at the concrete environment whose
`cleanup_temp_files` call raises "disk error". -/
theorem C6_cleanup_behavior_witness :
    envCleanupFails.validateError = none ∧
    envCleanupFails.extractFramesError = none ∧
    (∀ t ∈ envCleanupFails.frames, envCleanupFails.thumbError t = none) ∧
    envCleanupFails.cleanupError = some "disk error" ∧
    (process_video envCleanupFails initialMetadata).record.status
      = "failed" :=
  ⟨rfl, rfl, fun _ _ => rfl, rfl,
    (C6_cleanup_behavior envCleanupFails "disk error" rfl rfl
      (fun _ _ => rfl) rfl).2.1⟩

end VideoSearch
